import Mathlib

/-!
Verification of the parity-bridge deployment bootstrap (AlisProject/parity-bridge).

The development shallowly embeds the two source files of the excerpt:

* `src/src/app.rs` — the bootstrap controller `App::ensure_deployed` and the
  deployment orchestrator `App::deploy`.  Asynchronous effects (loading the
  record, the two confirmation-wait tasks, saving the record) are passed in
  as explicit result values, and the functions return a trace recording the
  outcome, whether `deploy` was invoked, what (if anything) was written to
  `database_path`, and which transaction requests were handed to the
  confirmation-wait primitive.

* `src/bridge/src/config.rs` — configuration loading: the `load` module's
  file-shaped structs with a TOML-value-level deserializer modelling the
  serde derive with `deny_unknown_fields`, and the fallible conversion
  `from_load_struct` functions that apply defaults.

Machine integers are modelled as `Nat` with explicit `% 2 ^ 64` where the
code truncates (`U256::low_u64`).
-/

set_option maxHeartbeats 1000000

/-- Value of one hexadecimal digit, as `rustc-hex` accepts them
(`0-9`, `a-f`, `A-F`); anything else is rejected. -/
def hexVal (c : Char) : Option Nat :=
  if '0' ≤ c ∧ c ≤ '9' then some (c.toNat - '0'.toNat)
  else if 'a' ≤ c ∧ c ≤ 'f' then some (c.toNat - 'a'.toNat + 10)
  else if 'A' ≤ c ∧ c ≤ 'F' then some (c.toNat - 'A'.toNat + 10)
  else none

/-- Decode a list of hex characters two at a time into bytes; fails on an
odd-length input or a non-hex character (mirrors `rustc_hex::FromHex`). -/
def hexPairs : List Char → Option (List Nat)
  | [] => some []
  | [_] => none
  | a :: b :: rest =>
    match hexVal a, hexVal b, hexPairs rest with
    | some ha, some hb, some tl => some ((16 * ha + hb) :: tl)
    | _, _, _ => none

/-- Hex-decode a string into bytes (`rustc_hex::FromHex` on `str`). -/
def hexDecode (s : String) : Option (List Nat) :=
  hexPairs s.data

/-- Big-endian byte list to natural number. -/
def bytesToNat (bs : List Nat) : Nat :=
  bs.foldl (fun acc b => 256 * acc + b) 0

/-- `str::parse::<Address>()`: the `FromStr` instance of the 160-bit address
type hex-decodes the raw string and requires exactly 20 bytes; on anything
else it fails (and the caller in `app.rs` panics via `expect`). -/
def parseAddress (s : String) : Option Nat :=
  match hexDecode s with
  | some bs => if bs.length = 20 then some (bytesToNat bs) else none
  | none => none

/-- Lowercase hex digit character. -/
def hexChar (n : Nat) : Char :=
  if n < 10 then Char.ofNat ('0'.toNat + n) else Char.ofNat ('a'.toNat + n - 10)

/-- Fixed-width big-endian hex rendering (`d` digits). -/
def toHexFixed : Nat → Nat → List Char
  | 0, _ => []
  | d + 1, n => toHexFixed d (n / 16) ++ [hexChar (n % 16)]

/-- `Address::to_string()` (the `Display` of the 160-bit hash type): forty
lowercase hex digits. -/
def addressToString (a : Nat) : String :=
  ⟨toHexFixed 40 a⟩

/-- `U256::low_u64`: keep only the low 64 bits of a 256-bit number. -/
def low_u64 (n : Nat) : Nat :=
  n % 2 ^ 64

/-- Modelled from the spec: `database.rs` is not in `src/`.  Per-network half
of the Deployment Record: deploy block height, relay cursor (equal to the
deploy height at creation), and the bridge contract's address. -/
structure BlockchainState where
  deploy_block_number : Nat
  last_block_number : Nat
  bridge_contract_address : String
deriving DecidableEq, Repr

/-- Modelled from the spec: `database.rs` is not in `src/`.  The persisted
Deployment Record, one `BlockchainState` per network. -/
structure Database where
  mainnet : BlockchainState
  testnet : BlockchainState
deriving DecidableEq, Repr

namespace App

/-- An error of the web3 transport layer (external collaborator); carried
opaquely. -/
structure Web3Error where
  message : String
deriving DecidableEq, Repr

/-- `std::io::ErrorKind`, restricted to the kinds the model distinguishes:
`NotFound` versus everything else (the code only tests for `NotFound`). -/
inductive IoErrorKind where
  | notFound
  | permissionDenied
  | otherKind
deriving DecidableEq, Repr

/-- Modelled from the spec: `error.rs` is not in `src/`.  The application
error kind matched in `ensure_deployed`: an IO error with its kind, a web3
transport error, or any other failure (e.g. a corrupt record that fails to
deserialize). -/
inductive ErrorKind where
  | io : IoErrorKind → ErrorKind
  | web3 : Web3Error → ErrorKind
  | other : String → ErrorKind
deriving DecidableEq, Repr

/-- Result of a computation that may also abort the process (`expect`
panics), in addition to succeeding or failing with an error. -/
inductive Outcome (α : Type) where
  | ok : α → Outcome α
  | error : ErrorKind → Outcome α
  | panic : String → Outcome α
deriving DecidableEq, Repr

/-- Modelled from the spec: the config module used by `app.rs` (per-network
deploy gas, gas price and value) is not in `src/`; only the later revision
`src/bridge/src/config.rs` is. -/
structure TxConfig where
  gas : Nat
  gas_price : Nat
  value : Nat
deriving DecidableEq, Repr

/-- Modelled from the spec: per-network application configuration consumed by
`app.rs` (account, deploy transaction parameters, poll interval, required
confirmations, IPC endpoint).  `contract_bin` records the network's
configured compiled-contract bytes named by the spec; `deploy` never reads
it (its payload is compile-time embedded). -/
structure Node where
  account : String
  ipc : String
  contract_bin : List Nat
  deploy_tx : TxConfig
  poll_interval : Nat
  required_confirmations : Nat
deriving DecidableEq, Repr

/-- Modelled from the spec: the application configuration consumed by
`app.rs`, one `Node` per network. -/
structure Config where
  mainnet : Node
  testnet : Node
deriving DecidableEq, Repr

/-- `web3::types::TransactionRequest` as populated by `deploy`. -/
structure TransactionRequest where
  «from» : Nat
  «to» : Option Nat
  gas : Option Nat
  gas_price : Option Nat
  value : Option Nat
  data : Option (List Nat)
  nonce : Option Nat
  condition : Option Unit
deriving DecidableEq, Repr

/-- `web3::types::TransactionReceipt`, restricted to the fields `deploy`
reads: the mined block number (a 256-bit quantity) and the optional created
contract address. -/
structure Receipt where
  block_number : Nat
  contract_address : Option Nat
deriving DecidableEq, Repr

/-- Modelled from the spec: contents of `contracts/EthereumBridge.bin`, the
compile-time embedded (`include_bytes!`) mainnet bridge bytecode; the file is
not in `src/`, so its bytes are opaque — no theorem depends on their value,
only on the payload being this fixed constant. -/
def EthereumBridge_bin : List Nat :=
  [54, 48, 54, 48]

/-- Modelled from the spec: contents of `contracts/KovanBridge.bin`, the
compile-time embedded (`include_bytes!`) testnet bridge bytecode; opaque as
for `EthereumBridge_bin`, but a distinct build. -/
def KovanBridge_bin : List Nat :=
  [54, 48, 54, 49]

/-- The panic message of the two `expect` calls on account parsing. -/
def parsePanicMsg : String :=
  "TODO: verify toml earlier"

/-- The panic message of the two `expect` calls on the receipt's contract
address. -/
def qedPanicMsg : String :=
  "contract creation receipt must have an address; qed"

/-- The `main_tx_request` literal of `deploy` (app.rs:69-78): sender parsed
from the mainnet account (panic on failure is handled by the caller), no
recipient, mainnet deploy gas / gas price / value, and the embedded
`EthereumBridge.bin` payload. -/
def main_tx_request (config : Config) : Option TransactionRequest :=
  (parseAddress config.mainnet.account).map fun a =>
    { «from» := a
      «to» := none
      gas := some config.mainnet.deploy_tx.gas
      gas_price := some config.mainnet.deploy_tx.gas_price
      value := some config.mainnet.deploy_tx.value
      data := some EthereumBridge_bin
      nonce := none
      condition := none }

/-- The `test_tx_request` literal of `deploy` (app.rs:80-89), with the
embedded `KovanBridge.bin` payload. -/
def test_tx_request (config : Config) : Option TransactionRequest :=
  (parseAddress config.testnet.account).map fun a =>
    { «from» := a
      «to» := none
      gas := some config.testnet.deploy_tx.gas
      gas_price := some config.testnet.deploy_tx.gas_price
      value := some config.testnet.deploy_tx.value
      data := some KovanBridge_bin
      nonce := none
      condition := none }

/-- The `main_future.join(test_future).map(...)` step of `deploy`
(app.rs:95-111): fails if either confirmation task failed; otherwise panics
if either receipt lacks a contract address (mainnet field first, as the
`Database` literal evaluates), else builds the record with `low_u64` block
numbers and stringified addresses. -/
def joinReceipts (mainResult testResult : Except Web3Error Receipt) :
    Outcome Database :=
  match mainResult, testResult with
  | .error e, _ => .error (.web3 e)
  | .ok _, .error e => .error (.web3 e)
  | .ok mr, .ok tr =>
    match mr.contract_address with
    | none => .panic qedPanicMsg
    | some ma =>
      match tr.contract_address with
      | none => .panic qedPanicMsg
      | some ta =>
        .ok
          { mainnet :=
              { deploy_block_number := low_u64 mr.block_number
                last_block_number := low_u64 mr.block_number
                bridge_contract_address := addressToString ma }
            testnet :=
              { deploy_block_number := low_u64 tr.block_number
                last_block_number := low_u64 tr.block_number
                bridge_contract_address := addressToString ta } }

/-- Trace of one `deploy` call: its outcome and the transaction request (if
any) submitted to each network's confirmation-wait primitive. -/
structure DeployTrace where
  outcome : Outcome Database
  main_submitted : Option TransactionRequest
  test_submitted : Option TransactionRequest
deriving DecidableEq, Repr

/-- `App::deploy` (app.rs:68-116).  Builds the two transaction requests
eagerly — an unparseable account panics before anything is submitted — then
submits both to the confirmation-wait primitive and joins the results.  The
two confirmation outcomes are passed in as `mainResult` / `testResult`. -/
def deploy (config : Config) (mainResult testResult : Except Web3Error Receipt) :
    DeployTrace :=
  match main_tx_request config with
  | none =>
    { outcome := .panic parsePanicMsg, main_submitted := none, test_submitted := none }
  | some mreq =>
    match test_tx_request config with
    | none =>
      { outcome := .panic parsePanicMsg, main_submitted := none, test_submitted := none }
    | some treq =>
      { outcome := joinReceipts mainResult testResult
        main_submitted := some mreq
        test_submitted := some treq }

/-- Trace of one `ensure_deployed` call: its outcome, whether `deploy` was
invoked, the record written to `database_path` (if any), and the requests
submitted to each network (if any). -/
structure EnsureTrace where
  result : Outcome Database
  deploy_invoked : Bool
  written : Option Database
  main_submitted : Option TransactionRequest
  test_submitted : Option TransactionRequest
deriving DecidableEq, Repr

/-- `App::ensure_deployed` (app.rs:53-66).  `loadResult` is the outcome of
`Database::load(&database_path)` (already mapped into `ErrorKind`),
`saveResult` the outcome of `database.save(database_path)` when reached.
A loaded record is returned as is; an IO `NotFound` load error triggers
`deploy` followed by `save`; every other load error is returned without
deploying. -/
def ensure_deployed (config : Config) (loadResult : Except ErrorKind Database)
    (mainResult testResult : Except Web3Error Receipt)
    (saveResult : Except ErrorKind Unit) : EnsureTrace :=
  match loadResult with
  | .ok database =>
    { result := .ok database, deploy_invoked := false, written := none
      main_submitted := none, test_submitted := none }
  | .error (.io .notFound) =>
    let d := deploy config mainResult testResult
    match d.outcome with
    | .ok database =>
      match saveResult with
      | .ok _ =>
        { result := .ok database, deploy_invoked := true, written := some database
          main_submitted := d.main_submitted, test_submitted := d.test_submitted }
      | .error e =>
        { result := .error e, deploy_invoked := true, written := none
          main_submitted := d.main_submitted, test_submitted := d.test_submitted }
    | .error e =>
      { result := .error e, deploy_invoked := true, written := none
        main_submitted := d.main_submitted, test_submitted := d.test_submitted }
    | .panic m =>
      { result := .panic m, deploy_invoked := true, written := none
        main_submitted := d.main_submitted, test_submitted := d.test_submitted }
  | .error err =>
    { result := .error err, deploy_invoked := false, written := none
      main_submitted := none, test_submitted := none }

end App

namespace Bridge

/-- The default poll interval in seconds (config.rs:11). -/
def DEFAULT_POLL_INTERVAL : Nat := 1

/-- The default required confirmation count (config.rs:12). -/
def DEFAULT_CONFIRMATIONS : Nat := 12

/-- The default request timeout in seconds (config.rs:13). -/
def DEFAULT_TIMEOUT : Nat := 5

/-- A TOML value as the `toml` crate hands it to serde: string, integer
(i64), table, or array.  Only the shapes the config schema uses are kept. -/
inductive Toml where
  | str : String → Toml
  | int : Int → Toml
  | table : List (String × Toml) → Toml
  | array : List Toml → Toml

namespace Load

/-- `load::TransactionConfig` (config.rs:200-205): both fields optional. -/
structure TransactionConfig where
  gas : Option Nat
  gas_price : Option Nat
deriving DecidableEq, Repr

/-- `load::Transactions` (config.rs:190-198): five optional per-type
transaction configs. -/
structure Transactions where
  home_deploy : Option TransactionConfig
  foreign_deploy : Option TransactionConfig
  deposit_relay : Option TransactionConfig
  withdraw_confirm : Option TransactionConfig
  withdraw_relay : Option TransactionConfig
deriving DecidableEq, Repr

/-- `load::ContractConfig` (config.rs:207-211): path of the compiled
contract. -/
structure ContractConfig where
  bin : String
deriving DecidableEq, Repr

/-- `load::NodeConfig` (config.rs:180-188). -/
structure NodeConfig where
  contract : ContractConfig
  http : String
  request_timeout : Option Nat
  poll_interval : Option Nat
  required_confirmations : Option Nat
deriving DecidableEq, Repr

/-- `load::Authorities` (config.rs:213-218). -/
structure Authorities where
  accounts : List Nat
  required_signatures : Nat
deriving DecidableEq, Repr

/-- `load::Config` (config.rs:164-178). -/
structure Config where
  address : Nat
  home : NodeConfig
  foreign : NodeConfig
  authorities : Authorities
  transactions : Option Transactions
  estimated_gas_cost_of_withdraw : Nat
  max_total_home_contract_balance : Nat
  max_single_deposit_value : Nat
deriving DecidableEq, Repr

end Load

/-- Key lookup in a TOML table (duplicate keys cannot arise from the `toml`
parser, so first match suffices). -/
def getKey (kvs : List (String × Toml)) (k : String) : Option Toml :=
  List.lookup k kvs

/-- Deserialize a `u64`/`usize` field: a non-negative TOML integer. -/
def decodeNat : Toml → Except String Nat
  | .int n => if 0 ≤ n then .ok n.toNat else .error "expected unsigned integer"
  | _ => .error "expected integer"

/-- Deserialize a string field. -/
def decodeStr : Toml → Except String String
  | .str s => .ok s
  | _ => .error "expected string"

/-- Deserialize an `Address` field: the serde instance of the 160-bit hash
type requires a `0x`-prefixed hex string encoding exactly 20 bytes. -/
def decodeAddress : Toml → Except String Nat
  | .str s =>
    if s.data.take 2 = ['0', 'x'] then
      match hexDecode (String.mk (s.data.drop 2)) with
      | some bs =>
        if bs.length = 20 then .ok (bytesToNat bs) else .error "invalid address length"
      | none => .error "invalid address hex"
    else .error "address must start with 0x"
  | _ => .error "expected address string"

/-- Modelled from the spec: `helpers.rs` (the `deserialize_u256` helper) is
not in `src/`.  The three policy values are arbitrary-precision unsigned
integers supplied as decimal strings (as the config tests show), bounded by
the 256-bit capacity of `U256`. -/
def decodeU256 : Toml → Except String Nat
  | .str s =>
    match decDecode s.data with
    | some n => if n < 2 ^ 256 then .ok n else .error "number too large"
    | none => .error "invalid decimal string"
  | _ => .error "expected decimal string"
where
  /-- Decimal digits to a number; fails on empty or non-digit input. -/
  decDecode : List Char → Option Nat :=
    fun cs =>
      if cs.isEmpty then none
      else cs.foldl
        (fun acc c =>
          match acc with
          | none => none
          | some n => if '0' ≤ c ∧ c ≤ '9' then some (10 * n + (c.toNat - '0'.toNat)) else none)
        (some 0)

/-- Deserialize an optional `u64` field of a table. -/
def decodeOptNat (kvs : List (String × Toml)) (k : String) :
    Except String (Option Nat) :=
  match getKey kvs k with
  | none => .ok none
  | some v => (decodeNat v).map some

/-- Deserialize a required field of a table with the given value decoder;
serde errors on a missing required field. -/
def reqField (kvs : List (String × Toml)) (k : String)
    (dec : Toml → Except String α) : Except String α :=
  match getKey kvs k with
  | none => .error "missing field"
  | some v => dec v

/-- The field names `load::TransactionConfig` accepts
(`deny_unknown_fields`). -/
def transactionConfigKey (k : String) : Bool :=
  k == "gas" || k == "gas_price"

/-- The field names `load::Transactions` accepts (`deny_unknown_fields`). -/
def transactionsKey (k : String) : Bool :=
  k == "home_deploy" || k == "foreign_deploy" || k == "deposit_relay" ||
    k == "withdraw_confirm" || k == "withdraw_relay"

/-- The field names `load::ContractConfig` accepts
(`deny_unknown_fields`). -/
def contractConfigKey (k : String) : Bool :=
  k == "bin"

/-- The field names `load::NodeConfig` accepts (`deny_unknown_fields`). -/
def nodeConfigKey (k : String) : Bool :=
  k == "contract" || k == "http" || k == "request_timeout" ||
    k == "poll_interval" || k == "required_confirmations"

/-- The field names `load::Authorities` accepts (`deny_unknown_fields`). -/
def authoritiesKey (k : String) : Bool :=
  k == "accounts" || k == "required_signatures"

/-- The field names `load::Config` accepts (`deny_unknown_fields`). -/
def configKey (k : String) : Bool :=
  k == "address" || k == "home" || k == "foreign" || k == "authorities" ||
    k == "transactions" || k == "estimated_gas_cost_of_withdraw" ||
    k == "max_total_home_contract_balance" || k == "max_single_deposit_value"

/-- Deserializer of `load::TransactionConfig`: rejects non-tables and, per
`deny_unknown_fields`, any key outside the schema. -/
def decodeTransactionConfig : Toml → Except String Load.TransactionConfig
  | .table kvs =>
    if kvs.all fun p => transactionConfigKey p.1 then
      match decodeOptNat kvs "gas" with
      | .error e => .error e
      | .ok gas =>
        match decodeOptNat kvs "gas_price" with
        | .error e => .error e
        | .ok gas_price => .ok { gas, gas_price }
    else .error "unknown field"
  | _ => .error "expected table"

/-- Deserialize an optional sub-table field with the given decoder. -/
def decodeOptField (kvs : List (String × Toml)) (k : String)
    (dec : Toml → Except String α) : Except String (Option α) :=
  match getKey kvs k with
  | none => .ok none
  | some v => (dec v).map some

/-- Deserializer of `load::Transactions`. -/
def decodeTransactions : Toml → Except String Load.Transactions
  | .table kvs =>
    if kvs.all fun p => transactionsKey p.1 then
      match decodeOptField kvs "home_deploy" decodeTransactionConfig with
      | .error e => .error e
      | .ok home_deploy =>
        match decodeOptField kvs "foreign_deploy" decodeTransactionConfig with
        | .error e => .error e
        | .ok foreign_deploy =>
          match decodeOptField kvs "deposit_relay" decodeTransactionConfig with
          | .error e => .error e
          | .ok deposit_relay =>
            match decodeOptField kvs "withdraw_confirm" decodeTransactionConfig with
            | .error e => .error e
            | .ok withdraw_confirm =>
              match decodeOptField kvs "withdraw_relay" decodeTransactionConfig with
              | .error e => .error e
              | .ok withdraw_relay =>
                .ok { home_deploy, foreign_deploy, deposit_relay,
                      withdraw_confirm, withdraw_relay }
    else .error "unknown field"
  | _ => .error "expected table"

/-- Deserializer of `load::ContractConfig`. -/
def decodeContractConfig : Toml → Except String Load.ContractConfig
  | .table kvs =>
    if kvs.all fun p => contractConfigKey p.1 then
      match reqField kvs "bin" decodeStr with
      | .error e => .error e
      | .ok bin => .ok { bin }
    else .error "unknown field"
  | _ => .error "expected table"

/-- Deserializer of `load::NodeConfig`. -/
def decodeNodeConfig : Toml → Except String Load.NodeConfig
  | .table kvs =>
    if kvs.all fun p => nodeConfigKey p.1 then
      match reqField kvs "contract" decodeContractConfig with
      | .error e => .error e
      | .ok contract =>
        match reqField kvs "http" decodeStr with
        | .error e => .error e
        | .ok http =>
          match decodeOptNat kvs "request_timeout" with
          | .error e => .error e
          | .ok request_timeout =>
            match decodeOptNat kvs "poll_interval" with
            | .error e => .error e
            | .ok poll_interval =>
              match decodeOptNat kvs "required_confirmations" with
              | .error e => .error e
              | .ok required_confirmations =>
                .ok { contract, http, request_timeout, poll_interval,
                      required_confirmations }
    else .error "unknown field"
  | _ => .error "expected table"

/-- Deserialize an array of addresses. -/
def decodeAddressList : List Toml → Except String (List Nat)
  | [] => .ok []
  | v :: rest => do
    let a ← decodeAddress v
    let tl ← decodeAddressList rest
    .ok (a :: tl)

/-- Deserializer of `load::Authorities`. -/
def decodeAuthorities : Toml → Except String Load.Authorities
  | .table kvs =>
    if kvs.all fun p => authoritiesKey p.1 then
      match reqField kvs "accounts" fun v =>
          match v with
          | .array vs => decodeAddressList vs
          | _ => .error "expected array" with
      | .error e => .error e
      | .ok accounts =>
        match reqField kvs "required_signatures" decodeNat with
        | .error e => .error e
        | .ok required_signatures => .ok { accounts, required_signatures }
    else .error "unknown field"
  | _ => .error "expected table"

/-- Deserializer of `load::Config`, the whole configuration file
(`toml::from_str` into the `load` structs). -/
def decodeConfig : Toml → Except String Load.Config
  | .table kvs =>
    if kvs.all fun p => configKey p.1 then
      match reqField kvs "address" decodeAddress with
      | .error e => .error e
      | .ok address =>
        match reqField kvs "home" decodeNodeConfig with
        | .error e => .error e
        | .ok home =>
          match reqField kvs "foreign" decodeNodeConfig with
          | .error e => .error e
          | .ok foreign =>
            match reqField kvs "authorities" decodeAuthorities with
            | .error e => .error e
            | .ok authorities =>
              match decodeOptField kvs "transactions" decodeTransactions with
              | .error e => .error e
              | .ok transactions =>
                match reqField kvs "estimated_gas_cost_of_withdraw" decodeU256 with
                | .error e => .error e
                | .ok estimated_gas_cost_of_withdraw =>
                  match reqField kvs "max_total_home_contract_balance" decodeU256 with
                  | .error e => .error e
                  | .ok max_total_home_contract_balance =>
                    match reqField kvs "max_single_deposit_value" decodeU256 with
                    | .error e => .error e
                    | .ok max_single_deposit_value =>
                      .ok { address, home, foreign, authorities, transactions,
                            estimated_gas_cost_of_withdraw,
                            max_total_home_contract_balance,
                            max_single_deposit_value }
    else .error "unknown field"
  | _ => .error "expected table"

/-- Application-shaped `TransactionConfig` (config.rs:129-133). -/
structure TransactionConfig where
  gas : Nat
  gas_price : Nat
deriving DecidableEq, Repr

/-- `TransactionConfig`'s `Default` derive: gas and gas price zero. -/
def TransactionConfig.default : TransactionConfig :=
  { gas := 0, gas_price := 0 }

/-- `TransactionConfig::from_load_struct` (config.rs:135-142):
`unwrap_or_default` on each optional field. -/
def TransactionConfig.from_load_struct (cfg : Load.TransactionConfig) :
    TransactionConfig :=
  { gas := cfg.gas.getD 0, gas_price := cfg.gas_price.getD 0 }

/-- Application-shaped `Transactions` (config.rs:98-105). -/
structure Transactions where
  home_deploy : TransactionConfig
  foreign_deploy : TransactionConfig
  deposit_relay : TransactionConfig
  withdraw_confirm : TransactionConfig
  withdraw_relay : TransactionConfig
deriving DecidableEq, Repr

/-- `Transactions`' `Default` derive: every per-type config defaulted. -/
def Transactions.default : Transactions :=
  { home_deploy := TransactionConfig.default
    foreign_deploy := TransactionConfig.default
    deposit_relay := TransactionConfig.default
    withdraw_confirm := TransactionConfig.default
    withdraw_relay := TransactionConfig.default }

/-- `Transactions::from_load_struct` (config.rs:107-127). -/
def Transactions.from_load_struct (cfg : Load.Transactions) : Transactions :=
  { home_deploy := (cfg.home_deploy.map TransactionConfig.from_load_struct).getD
      TransactionConfig.default
    foreign_deploy := (cfg.foreign_deploy.map TransactionConfig.from_load_struct).getD
      TransactionConfig.default
    deposit_relay := (cfg.deposit_relay.map TransactionConfig.from_load_struct).getD
      TransactionConfig.default
    withdraw_confirm := (cfg.withdraw_confirm.map TransactionConfig.from_load_struct).getD
      TransactionConfig.default
    withdraw_relay := (cfg.withdraw_relay.map TransactionConfig.from_load_struct).getD
      TransactionConfig.default }

/-- Application-shaped `ContractConfig` (config.rs:144-147): the hex-decoded
bytecode. -/
structure ContractConfig where
  bin : List Nat
deriving DecidableEq, Repr

/-- Application-shaped `Authorities` (config.rs:149-153). -/
structure Authorities where
  accounts : List Nat
  required_signatures : Nat
deriving DecidableEq, Repr

/-- Application-shaped `NodeConfig` (config.rs:63-70); durations carried in
whole seconds (`Duration::from_secs`). -/
structure NodeConfig where
  contract : ContractConfig
  http : String
  request_timeout : Nat
  poll_interval : Nat
  required_confirmations : Nat
deriving DecidableEq, Repr

/-- `NodeConfig::from_load_struct` (config.rs:72-96).  `fs` maps a path to
the contents of the file there (`none` when it cannot be opened or read);
the contents are hex-decoded into the contract bytes, and the optional
fields are defaulted. -/
def NodeConfig.from_load_struct (fs : String → Option String)
    (node : Load.NodeConfig) : Except String NodeConfig :=
  match fs node.contract.bin with
  | none => .error "Cannot open compiled contract file"
  | some content =>
    match hexDecode content with
    | none => .error "invalid hex in compiled contract file"
    | some bytes =>
      .ok
        { contract := { bin := bytes }
          http := node.http
          request_timeout := node.request_timeout.getD DEFAULT_TIMEOUT
          poll_interval := node.poll_interval.getD DEFAULT_POLL_INTERVAL
          required_confirmations :=
            node.required_confirmations.getD DEFAULT_CONFIRMATIONS }

/-- Application-shaped `Config` (config.rs:16-26). -/
structure Config where
  address : Nat
  home : NodeConfig
  foreign : NodeConfig
  authorities : Authorities
  txs : Transactions
  estimated_gas_cost_of_withdraw : Nat
  max_total_home_contract_balance : Nat
  max_single_deposit_value : Nat
deriving DecidableEq, Repr

/-- `Config::from_load_struct` (config.rs:41-60): converts both node
configs (fallible, reading each contract file through `fs`) and defaults
the whole transactions table when absent. -/
def Config.from_load_struct (fs : String → Option String)
    (config : Load.Config) : Except String Config :=
  match NodeConfig.from_load_struct fs config.home with
  | .error e => .error e
  | .ok home =>
    match NodeConfig.from_load_struct fs config.foreign with
    | .error e => .error e
    | .ok foreign =>
      .ok
        { address := config.address
          home, foreign
          authorities :=
            { accounts := config.authorities.accounts
              required_signatures := config.authorities.required_signatures }
          txs := (config.transactions.map Transactions.from_load_struct).getD
            Transactions.default
          estimated_gas_cost_of_withdraw := config.estimated_gas_cost_of_withdraw
          max_total_home_contract_balance := config.max_total_home_contract_balance
          max_single_deposit_value := config.max_single_deposit_value }

/-- `Config::load_from_str` at the TOML-value level (config.rs:36-39):
deserialize the `load` structs, then convert. -/
def Config.load_from_toml (fs : String → Option String) (v : Toml) :
    Except String Config :=
  match decodeConfig v with
  | .error e => .error e
  | .ok config => Config.from_load_struct fs config

end Bridge

/-! Concrete example values used by the witness theorems. -/

/-- Example mainnet node configuration (account `0x..aa`). -/
def exMainNode : App.Node :=
  { account := "00000000000000000000000000000000000000aa"
    ipc := "main.ipc"
    contract_bin := [170]
    deploy_tx := { gas := 21000, gas_price := 7, value := 0 }
    poll_interval := 1
    required_confirmations := 12 }

/-- Example testnet node configuration (account `0x..bb`). -/
def exTestNode : App.Node :=
  { account := "00000000000000000000000000000000000000bb"
    ipc := "test.ipc"
    contract_bin := [187]
    deploy_tx := { gas := 30000, gas_price := 9, value := 5 }
    poll_interval := 2
    required_confirmations := 6 }

/-- Example application configuration. -/
def exConfig : App.Config :=
  { mainnet := exMainNode, testnet := exTestNode }

/-- Example configuration whose mainnet account string is not a valid
address. -/
def exBadConfig : App.Config :=
  { mainnet := { exMainNode with account := "not-an-address" }
    testnet := exTestNode }

/-- Example stored deployment record. -/
def exStoredDb : Database :=
  { mainnet :=
      { deploy_block_number := 5, last_block_number := 5
        bridge_contract_address := "aa" }
    testnet :=
      { deploy_block_number := 6, last_block_number := 6
        bridge_contract_address := "bb" } }

/-- Example mainnet receipt: mined at block 100, contract at address 3. -/
def exMainReceipt : App.Receipt :=
  { block_number := 100, contract_address := some 3 }

/-- Example testnet receipt: mined at block 101, contract at address 4. -/
def exTestReceipt : App.Receipt :=
  { block_number := 101, contract_address := some 4 }

/-- Example mainnet receipt with a block number that does not fit in 64
bits. -/
def exBigMainReceipt : App.Receipt :=
  { block_number := 2 ^ 64, contract_address := some 3 }

/-- Example testnet receipt with an oversized block number. -/
def exBigTestReceipt : App.Receipt :=
  { block_number := 2 ^ 64 + 5, contract_address := some 4 }

/-- The mainnet transaction request `deploy` builds from `exConfig`. -/
def exMainRequest : App.TransactionRequest :=
  { «from» := 170, «to» := none, gas := some 21000, gas_price := some 7
    value := some 0, data := some App.EthereumBridge_bin, nonce := none
    condition := none }

/-- The testnet transaction request `deploy` builds from `exConfig`. -/
def exTestRequest : App.TransactionRequest :=
  { «from» := 187, «to» := none, gas := some 30000, gas_price := some 9
    value := some 5, data := some App.KovanBridge_bin, nonce := none
    condition := none }

/-- The record `deploy` produces from `exMainReceipt`/`exTestReceipt`. -/
def exDeployedDb : Database :=
  { mainnet :=
      { deploy_block_number := 100, last_block_number := 100
        bridge_contract_address := addressToString 3 }
    testnet :=
      { deploy_block_number := 101, last_block_number := 101
        bridge_contract_address := addressToString 4 } }

/-- The record `deploy` produces from the oversized-block receipts. -/
def exBigDb : Database :=
  { mainnet :=
      { deploy_block_number := 0, last_block_number := 0
        bridge_contract_address := addressToString 3 }
    testnet :=
      { deploy_block_number := 5, last_block_number := 5
        bridge_contract_address := addressToString 4 } }

/-- Config pair for the bytecode-provenance counterexample: identical but
for the configured contract bytes. -/
def exCfgBinA : App.Config :=
  { mainnet := { exMainNode with contract_bin := [170] }, testnet := exTestNode }

/-- Second half of the bytecode-provenance pair. -/
def exCfgBinB : App.Config :=
  { mainnet := { exMainNode with contract_bin := [187, 188] }
    testnet := exTestNode }

/-- Example file system for the bridge config witnesses: two contract
files holding hex text. -/
def exFs : String → Option String := fun p =>
  if p = "home.bin" then some "00ff"
  else if p = "foreign.bin" then some "aabb"
  else none

/-- Example file-shaped home node config: explicit request timeout, the
other optional fields absent. -/
def exLoadHomeNode : Bridge.Load.NodeConfig :=
  { contract := { bin := "home.bin" }
    http := "http://localhost:8545"
    request_timeout := some 9
    poll_interval := none
    required_confirmations := none }

/-- Example file-shaped foreign node config: explicit confirmation count,
the other optional fields absent. -/
def exLoadForeignNode : Bridge.Load.NodeConfig :=
  { contract := { bin := "foreign.bin" }
    http := ""
    request_timeout := none
    poll_interval := none
    required_confirmations := some 100 }

/-- Example file-shaped whole configuration with no transactions table. -/
def exLoadConfig : Bridge.Load.Config :=
  { address := 1
    home := exLoadHomeNode
    foreign := exLoadForeignNode
    authorities := { accounts := [1, 2, 3], required_signatures := 2 }
    transactions := none
    estimated_gas_cost_of_withdraw := 100000
    max_total_home_contract_balance := 10000000000000000000
    max_single_deposit_value := 1000000000000000000 }

/-- The application-shaped configuration obtained from `exLoadConfig`. -/
def exBridgeConfig : Bridge.Config :=
  { address := 1
    home :=
      { contract := { bin := [0, 255] }
        http := "http://localhost:8545"
        request_timeout := 9
        poll_interval := 1
        required_confirmations := 12 }
    foreign :=
      { contract := { bin := [170, 187] }
        http := ""
        request_timeout := 5
        poll_interval := 1
        required_confirmations := 100 }
    authorities := { accounts := [1, 2, 3], required_signatures := 2 }
    txs := Bridge.Transactions.default
    estimated_gas_cost_of_withdraw := 100000
    max_total_home_contract_balance := 10000000000000000000
    max_single_deposit_value := 1000000000000000000 }

/-! Helper lemmas shared by the claim theorems. -/

/-- If `deploy` produced a record, both confirmation tasks had resolved
successfully. -/
theorem deploy_ok_both_confirmed (config : App.Config)
    (mainResult testResult : Except App.Web3Error App.Receipt) (db : Database)
    (h : (App.deploy config mainResult testResult).outcome = .ok db) :
    (∃ mr, mainResult = .ok mr) ∧ ∃ tr, testResult = .ok tr := by
  cases hm : App.main_tx_request config with
  | none => simp [App.deploy, hm] at h
  | some mreq =>
    cases ht : App.test_tx_request config with
    | none => simp [App.deploy, hm, ht] at h
    | some treq =>
      simp only [App.deploy, hm, ht] at h
      cases mainResult with
      | error e => simp [App.joinReceipts] at h
      | ok mr =>
        cases testResult with
        | error e => simp [App.joinReceipts] at h
        | ok tr => exact ⟨⟨mr, rfl⟩, ⟨tr, rfl⟩⟩

/-- If either confirmation task failed (and both requests were built),
`deploy` fails with a web3 error. -/
theorem deploy_error_of_confirm_error (config : App.Config)
    (mreq treq : App.TransactionRequest)
    (mainResult testResult : Except App.Web3Error App.Receipt)
    (hm : App.main_tx_request config = some mreq)
    (ht : App.test_tx_request config = some treq)
    (h : (∃ e, mainResult = .error e) ∨ ∃ e, testResult = .error e) :
    ∃ e, (App.deploy config mainResult testResult).outcome =
      .error (.web3 e) := by
  rcases h with ⟨e, he⟩ | ⟨e, he⟩
  · subst he
    exact ⟨e, by simp [App.deploy, hm, ht, App.joinReceipts]⟩
  · subst he
    cases mainResult with
    | error e2 => exact ⟨e2, by simp [App.deploy, hm, ht, App.joinReceipts]⟩
    | ok mr => exact ⟨e, by simp [App.deploy, hm, ht, App.joinReceipts]⟩

/-! The claim theorems. -/

/-- C1: if a Deployment Record can be loaded from `database_path`,
`ensure_deployed` returns that stored record unchanged, never invokes
`deploy`, submits no deployment transactions, and writes nothing. -/
theorem ensure_deployed_returns_loaded_record (config : App.Config)
    (loadResult : Except App.ErrorKind Database)
    (mainResult testResult : Except App.Web3Error App.Receipt)
    (saveResult : Except App.ErrorKind Unit) (db : Database)
    (h : loadResult = .ok db) :
    App.ensure_deployed config loadResult mainResult testResult saveResult =
      { result := .ok db
        deploy_invoked := false
        written := none
        main_submitted := none
        test_submitted := none } := by
  subst h
  rfl

/-- Witness for `ensure_deployed_returns_loaded_record`: a stored record is
returned as is, with no deployment and no write. -/
theorem ensure_deployed_returns_loaded_record_witness :
    App.ensure_deployed exConfig (.ok exStoredDb) (.ok exMainReceipt)
        (.ok exTestReceipt) (.ok ()) =
      { result := .ok exStoredDb
        deploy_invoked := false
        written := none
        main_submitted := none
        test_submitted := none } :=
  ensure_deployed_returns_loaded_record exConfig (.ok exStoredDb)
    (.ok exMainReceipt) (.ok exTestReceipt) (.ok ()) exStoredDb rfl

/-- C2: on an absent record, a record is written only after both
confirmation tasks have resolved successfully (and the save succeeded); if
either confirmation task fails, the overall result is an error and nothing
is written. -/
theorem ensure_deployed_persist_requires_join (config : App.Config)
    (loadResult : Except App.ErrorKind Database)
    (mainResult testResult : Except App.Web3Error App.Receipt)
    (saveResult : Except App.ErrorKind Unit)
    (mreq treq : App.TransactionRequest)
    (habs : loadResult = .error (.io .notFound)) :
    (∀ db, (App.ensure_deployed config loadResult mainResult testResult
        saveResult).written = some db →
      ((∃ mr, mainResult = .ok mr) ∧ ∃ tr, testResult = .ok tr)) ∧
    (App.main_tx_request config = some mreq →
      App.test_tx_request config = some treq →
      ((∃ e, mainResult = .error e) ∨ (∃ e, testResult = .error e)) →
      (∃ e, (App.ensure_deployed config loadResult mainResult testResult
          saveResult).result = .error (.web3 e)) ∧
        (App.ensure_deployed config loadResult mainResult testResult
          saveResult).written = none) := by
  subst habs
  constructor
  · intro db hw
    cases hdo : (App.deploy config mainResult testResult).outcome with
    | ok db2 =>
      exact deploy_ok_both_confirmed config mainResult testResult db2 hdo
    | error e => simp [App.ensure_deployed, hdo] at hw
    | panic m => simp [App.ensure_deployed, hdo] at hw
  · intro hm ht herr
    obtain ⟨e, he⟩ :=
      deploy_error_of_confirm_error config mreq treq mainResult testResult
        hm ht herr
    exact ⟨⟨e, by simp [App.ensure_deployed, he]⟩,
      by simp [App.ensure_deployed, he]⟩

/-- Witness for `ensure_deployed_persist_requires_join`: on an absent record
with the mainnet confirmation failing, the run errors and writes nothing;
and on a fully successful run, a persisted record implies both receipts. -/
theorem ensure_deployed_persist_requires_join_witness :
    ((∃ e, (App.ensure_deployed exConfig (.error (.io .notFound))
        (.error { message := "boom" }) (.ok exTestReceipt) (.ok ())).result =
          .error (.web3 e)) ∧
      (App.ensure_deployed exConfig (.error (.io .notFound))
        (.error { message := "boom" }) (.ok exTestReceipt) (.ok ())).written =
        none) ∧
    ((∃ mr, (Except.ok exMainReceipt : Except App.Web3Error App.Receipt) =
        .ok mr) ∧
      ∃ tr, (Except.ok exTestReceipt : Except App.Web3Error App.Receipt) =
        .ok tr) :=
  ⟨(ensure_deployed_persist_requires_join exConfig (.error (.io .notFound))
      (.error { message := "boom" }) (.ok exTestReceipt) (.ok ())
      exMainRequest exTestRequest rfl).2 (by decide) (by decide)
      (Or.inl ⟨{ message := "boom" }, rfl⟩),
   (ensure_deployed_persist_requires_join exConfig (.error (.io .notFound))
      (.ok exMainReceipt) (.ok exTestReceipt) (.ok ())
      exMainRequest exTestRequest rfl).1 exDeployedDb (by decide)⟩

/-- C3: `ensure_deployed` invokes `deploy` exactly when the load failed
with an IO not-found error; every other load failure is propagated as an
error without deploying, submitting, or writing anything. -/
theorem ensure_deployed_deploys_iff_not_found (config : App.Config)
    (loadResult : Except App.ErrorKind Database)
    (mainResult testResult : Except App.Web3Error App.Receipt)
    (saveResult : Except App.ErrorKind Unit) :
    ((App.ensure_deployed config loadResult mainResult testResult
        saveResult).deploy_invoked = true ↔
      loadResult = .error (.io .notFound)) ∧
    (∀ e, loadResult = .error e → e ≠ .io .notFound →
      App.ensure_deployed config loadResult mainResult testResult saveResult =
        { result := .error e
          deploy_invoked := false
          written := none
          main_submitted := none
          test_submitted := none }) := by
  constructor
  · cases loadResult with
    | ok db => simp [App.ensure_deployed]
    | error e =>
      cases e with
      | io k =>
        cases k with
        | notFound =>
          cases hdo : (App.deploy config mainResult testResult).outcome <;>
            cases saveResult <;>
              simp [App.ensure_deployed, hdo]
        | permissionDenied => simp [App.ensure_deployed]
        | otherKind => simp [App.ensure_deployed]
      | web3 e2 => simp [App.ensure_deployed]
      | other s => simp [App.ensure_deployed]
  · intro e he hne
    subst he
    cases e with
    | io k =>
      cases k with
      | notFound => exact absurd rfl hne
      | permissionDenied => rfl
      | otherKind => rfl
    | web3 e2 => rfl
    | other s => rfl

/-- Witness for `ensure_deployed_deploys_iff_not_found`: a not-found load
triggers deployment, while a permission-denied load is propagated without
deploying. -/
theorem ensure_deployed_deploys_iff_not_found_witness :
    (App.ensure_deployed exConfig (.error (.io .notFound)) (.ok exMainReceipt)
      (.ok exTestReceipt) (.ok ())).deploy_invoked = true ∧
    App.ensure_deployed exConfig (.error (.io .permissionDenied))
        (.ok exMainReceipt) (.ok exTestReceipt) (.ok ()) =
      { result := .error (.io .permissionDenied)
        deploy_invoked := false
        written := none
        main_submitted := none
        test_submitted := none } :=
  ⟨(ensure_deployed_deploys_iff_not_found exConfig (.error (.io .notFound))
      (.ok exMainReceipt) (.ok exTestReceipt) (.ok ())).1.mpr rfl,
   (ensure_deployed_deploys_iff_not_found exConfig
      (.error (.io .permissionDenied)) (.ok exMainReceipt) (.ok exTestReceipt)
      (.ok ())).2 (.io .permissionDenied) rfl (by decide)⟩

/-- C4 counterexample: the data field of the built mainnet request is the
compile-time embedded payload — unchanged when the configured contract
bytes change, and different from them — so it is not loaded (hex-decoded)
from the network's configured `contract.bin`. -/
theorem main_tx_request_data_not_from_config :
    exCfgBinA.mainnet.contract_bin ≠ exCfgBinB.mainnet.contract_bin ∧
    (App.main_tx_request exCfgBinA).map App.TransactionRequest.data =
      some (some App.EthereumBridge_bin) ∧
    (App.main_tx_request exCfgBinB).map App.TransactionRequest.data =
      some (some App.EthereumBridge_bin) ∧
    (App.main_tx_request exCfgBinA).map App.TransactionRequest.data ≠
      some (some exCfgBinA.mainnet.contract_bin) :=
  ⟨by decide, by decide, by decide, by decide⟩

/-- C4 (amended): each of the two deployment transaction requests uses that
network's configured account, gas, gas price and value, while its data
field is that network's compile-time embedded bridge bytecode
(`EthereumBridge.bin` for mainnet, `KovanBridge.bin` for testnet),
independent of the configuration. -/
theorem deploy_tx_request_fields (config : App.Config) (a b : Nat)
    (hma : parseAddress config.mainnet.account = some a)
    (hta : parseAddress config.testnet.account = some b) :
    App.main_tx_request config = some
      { «from» := a
        «to» := none
        gas := some config.mainnet.deploy_tx.gas
        gas_price := some config.mainnet.deploy_tx.gas_price
        value := some config.mainnet.deploy_tx.value
        data := some App.EthereumBridge_bin
        nonce := none
        condition := none } ∧
    App.test_tx_request config = some
      { «from» := b
        «to» := none
        gas := some config.testnet.deploy_tx.gas
        gas_price := some config.testnet.deploy_tx.gas_price
        value := some config.testnet.deploy_tx.value
        data := some App.KovanBridge_bin
        nonce := none
        condition := none } := by
  constructor
  · simp [App.main_tx_request, hma]
  · simp [App.test_tx_request, hta]

/-- Witness for `deploy_tx_request_fields` at the example configuration. -/
theorem deploy_tx_request_fields_witness :
    App.main_tx_request exConfig = some
      { «from» := 170
        «to» := none
        gas := some exConfig.mainnet.deploy_tx.gas
        gas_price := some exConfig.mainnet.deploy_tx.gas_price
        value := some exConfig.mainnet.deploy_tx.value
        data := some App.EthereumBridge_bin
        nonce := none
        condition := none } ∧
    App.test_tx_request exConfig = some
      { «from» := 187
        «to» := none
        gas := some exConfig.testnet.deploy_tx.gas
        gas_price := some exConfig.testnet.deploy_tx.gas_price
        value := some exConfig.testnet.deploy_tx.value
        data := some App.KovanBridge_bin
        nonce := none
        condition := none } :=
  deploy_tx_request_fields exConfig 170 187 (by decide) (by decide)

/-- C5: when both confirmation tasks resolve, a receipt without a
contract-creation address makes `deploy` panic (the qed expect) rather than
return an error, and with both addresses present `deploy` returns a
record. -/
theorem deploy_qed_panic_or_record (config : App.Config)
    (mreq treq : App.TransactionRequest) (mr tr : App.Receipt)
    (hm : App.main_tx_request config = some mreq)
    (ht : App.test_tx_request config = some treq) :
    ((mr.contract_address = none ∨ tr.contract_address = none) →
      (App.deploy config (.ok mr) (.ok tr)).outcome =
        .panic App.qedPanicMsg) ∧
    (∀ ma ta, mr.contract_address = some ma → tr.contract_address = some ta →
      ∃ db, (App.deploy config (.ok mr) (.ok tr)).outcome = .ok db) := by
  constructor
  · rintro (h | h)
    · simp [App.deploy, hm, ht, App.joinReceipts, h]
    · cases hma : mr.contract_address <;>
        simp [App.deploy, hm, ht, App.joinReceipts, hma, h]
  · intro ma ta hma hta
    exact ⟨{ mainnet :=
               { deploy_block_number := low_u64 mr.block_number
                 last_block_number := low_u64 mr.block_number
                 bridge_contract_address := addressToString ma }
             testnet :=
               { deploy_block_number := low_u64 tr.block_number
                 last_block_number := low_u64 tr.block_number
                 bridge_contract_address := addressToString ta } },
           by simp [App.deploy, hm, ht, App.joinReceipts, hma, hta]⟩

/-- Witness for `deploy_qed_panic_or_record`: an address-less mainnet
receipt panics; the fully-addressed receipts yield a record. -/
theorem deploy_qed_panic_or_record_witness :
    (App.deploy exConfig
      (.ok { block_number := 100, contract_address := none })
      (.ok exTestReceipt)).outcome = .panic App.qedPanicMsg ∧
    ∃ db, (App.deploy exConfig (.ok exMainReceipt)
      (.ok exTestReceipt)).outcome = .ok db :=
  ⟨(deploy_qed_panic_or_record exConfig exMainRequest exTestRequest
      { block_number := 100, contract_address := none } exTestReceipt
      (by decide) (by decide)).1 (Or.inl rfl),
   (deploy_qed_panic_or_record exConfig exMainRequest exTestRequest
      exMainReceipt exTestReceipt (by decide) (by decide)).2 3 4 rfl rfl⟩

/-- C6: a successful `deploy` sets each network's `deploy_block_number`
equal to its `last_block_number`, both taken (through `low_u64`) from that
network's own receipt's mined block number, and the contract address from
that same receipt. -/
theorem deploy_record_from_receipts (config : App.Config)
    (mreq treq : App.TransactionRequest) (mr tr : App.Receipt) (ma ta : Nat)
    (hm : App.main_tx_request config = some mreq)
    (ht : App.test_tx_request config = some treq)
    (hma : mr.contract_address = some ma)
    (hta : tr.contract_address = some ta) :
    (App.deploy config (.ok mr) (.ok tr)).outcome = .ok
      { mainnet :=
          { deploy_block_number := low_u64 mr.block_number
            last_block_number := low_u64 mr.block_number
            bridge_contract_address := addressToString ma }
        testnet :=
          { deploy_block_number := low_u64 tr.block_number
            last_block_number := low_u64 tr.block_number
            bridge_contract_address := addressToString ta } } := by
  simp [App.deploy, hm, ht, App.joinReceipts, hma, hta]

/-- Witness for `deploy_record_from_receipts` at the example receipts. -/
theorem deploy_record_from_receipts_witness :
    (App.deploy exConfig (.ok exMainReceipt) (.ok exTestReceipt)).outcome =
      .ok
        { mainnet :=
            { deploy_block_number := low_u64 exMainReceipt.block_number
              last_block_number := low_u64 exMainReceipt.block_number
              bridge_contract_address := addressToString 3 }
          testnet :=
            { deploy_block_number := low_u64 exTestReceipt.block_number
              last_block_number := low_u64 exTestReceipt.block_number
              bridge_contract_address := addressToString 4 } } :=
  deploy_record_from_receipts exConfig exMainRequest exTestRequest
    exMainReceipt exTestReceipt 3 4 (by decide) (by decide) rfl rfl

/-- C9: the recorded block heights are the receipt's block number reduced
modulo `2 ^ 64` (`low_u64`), so a receipt whose block number is at least
`2 ^ 64` is recorded at a different height than the one it was mined at. -/
theorem deploy_truncates_block_number (config : App.Config)
    (mreq treq : App.TransactionRequest) (mr tr : App.Receipt) (ma ta : Nat)
    (db : Database)
    (hm : App.main_tx_request config = some mreq)
    (ht : App.test_tx_request config = some treq)
    (hma : mr.contract_address = some ma)
    (hta : tr.contract_address = some ta)
    (hdb : (App.deploy config (.ok mr) (.ok tr)).outcome = .ok db) :
    db.mainnet.deploy_block_number = mr.block_number % 2 ^ 64 ∧
    db.mainnet.last_block_number = mr.block_number % 2 ^ 64 ∧
    db.testnet.deploy_block_number = tr.block_number % 2 ^ 64 ∧
    db.testnet.last_block_number = tr.block_number % 2 ^ 64 ∧
    (2 ^ 64 ≤ mr.block_number →
      db.mainnet.deploy_block_number ≠ mr.block_number) ∧
    (2 ^ 64 ≤ tr.block_number →
      db.testnet.deploy_block_number ≠ tr.block_number) := by
  simp only [App.deploy, hm, ht, App.joinReceipts, hma, hta] at hdb
  have hdb' :
      db = { mainnet :=
               { deploy_block_number := low_u64 mr.block_number
                 last_block_number := low_u64 mr.block_number
                 bridge_contract_address := addressToString ma }
             testnet :=
               { deploy_block_number := low_u64 tr.block_number
                 last_block_number := low_u64 tr.block_number
                 bridge_contract_address := addressToString ta } } := by
    cases hdb
    rfl
  subst hdb'
  refine ⟨rfl, rfl, rfl, rfl, fun hle heq => ?_, fun hle heq => ?_⟩
  · have h1 : mr.block_number % 2 ^ 64 < 2 ^ 64 :=
      Nat.mod_lt _ (by norm_num)
    simp only [low_u64] at heq
    omega
  · have h1 : tr.block_number % 2 ^ 64 < 2 ^ 64 :=
      Nat.mod_lt _ (by norm_num)
    simp only [low_u64] at heq
    omega

/-- Witness for `deploy_truncates_block_number`: a deployment mined at
block `2 ^ 64` is recorded at height 0. -/
theorem deploy_truncates_block_number_witness :
    exBigDb.mainnet.deploy_block_number =
      exBigMainReceipt.block_number % 2 ^ 64 ∧
    exBigDb.mainnet.last_block_number =
      exBigMainReceipt.block_number % 2 ^ 64 ∧
    exBigDb.testnet.deploy_block_number =
      exBigTestReceipt.block_number % 2 ^ 64 ∧
    exBigDb.testnet.last_block_number =
      exBigTestReceipt.block_number % 2 ^ 64 ∧
    (2 ^ 64 ≤ exBigMainReceipt.block_number →
      exBigDb.mainnet.deploy_block_number ≠ exBigMainReceipt.block_number) ∧
    (2 ^ 64 ≤ exBigTestReceipt.block_number →
      exBigDb.testnet.deploy_block_number ≠ exBigTestReceipt.block_number) :=
  deploy_truncates_block_number exConfig exMainRequest exTestRequest
    exBigMainReceipt exBigTestReceipt 3 4 exBigDb (by decide) (by decide)
    rfl rfl (by decide)

/-- C10: `deploy` panics — with nothing submitted to either network —
whenever either configured account string does not parse as an address. -/
theorem deploy_panics_on_unparseable_account (config : App.Config)
    (mainResult testResult : Except App.Web3Error App.Receipt)
    (h : parseAddress config.mainnet.account = none ∨
      parseAddress config.testnet.account = none) :
    App.deploy config mainResult testResult =
      { outcome := .panic App.parsePanicMsg
        main_submitted := none
        test_submitted := none } := by
  rcases h with h | h
  · simp [App.deploy, App.main_tx_request, h]
  · cases hm : parseAddress config.mainnet.account with
    | none => simp [App.deploy, App.main_tx_request, hm]
    | some a =>
      simp [App.deploy, App.main_tx_request, App.test_tx_request, hm, h]

/-- Witness for `deploy_panics_on_unparseable_account`: a config whose
mainnet account is not hex panics with nothing submitted, even though both
confirmation results were available. -/
theorem deploy_panics_on_unparseable_account_witness :
    App.deploy exBadConfig (.ok exMainReceipt) (.ok exTestReceipt) =
      { outcome := .panic App.parsePanicMsg
        main_submitted := none
        test_submitted := none } :=
  deploy_panics_on_unparseable_account exBadConfig (.ok exMainReceipt)
    (.ok exTestReceipt) (Or.inl (by decide))

/-! Helper lemmas for the configuration claims. -/

/-- A list with a member failing the predicate fails `List.all`. -/
theorem all_eq_false_of_mem {α : Type} {p : α → Bool} {l : List α} {x : α}
    (hx : x ∈ l) (hpx : p x = false) : l.all p = false := by
  cases h : l.all p with
  | false => rfl
  | true => exact absurd (List.all_eq_true.mp h x hx) (by simp [hpx])

/-- Mapping an `Except` preserves `isOk`. -/
theorem isOk_map {ε α β : Type} (f : α → β) (x : Except ε α) :
    (x.map f).isOk = x.isOk := by
  cases x <;> rfl

/-- A table with an unknown key is rejected by the transaction-config
deserializer with the unknown-field error. -/
theorem decodeTransactionConfig_unknown_key
    {kvs : List (String × Bridge.Toml)} {p : String × Bridge.Toml}
    (hmem : p ∈ kvs) (hbad : Bridge.transactionConfigKey p.1 = false) :
    Bridge.decodeTransactionConfig (.table kvs) = .error "unknown field" := by
  have hall : (kvs.all fun q => Bridge.transactionConfigKey q.1) = false :=
    all_eq_false_of_mem hmem hbad
  simp [Bridge.decodeTransactionConfig, hall]

/-- A table with an unknown key is rejected by the transactions
deserializer with the unknown-field error. -/
theorem decodeTransactions_unknown_key
    {kvs : List (String × Bridge.Toml)} {p : String × Bridge.Toml}
    (hmem : p ∈ kvs) (hbad : Bridge.transactionsKey p.1 = false) :
    Bridge.decodeTransactions (.table kvs) = .error "unknown field" := by
  have hall : (kvs.all fun q => Bridge.transactionsKey q.1) = false :=
    all_eq_false_of_mem hmem hbad
  simp [Bridge.decodeTransactions, hall]

/-- A table with an unknown key is rejected by the contract-config
deserializer with the unknown-field error. -/
theorem decodeContractConfig_unknown_key
    {kvs : List (String × Bridge.Toml)} {p : String × Bridge.Toml}
    (hmem : p ∈ kvs) (hbad : Bridge.contractConfigKey p.1 = false) :
    Bridge.decodeContractConfig (.table kvs) = .error "unknown field" := by
  have hall : (kvs.all fun q => Bridge.contractConfigKey q.1) = false :=
    all_eq_false_of_mem hmem hbad
  simp [Bridge.decodeContractConfig, hall]

/-- A table with an unknown key is rejected by the node-config
deserializer with the unknown-field error. -/
theorem decodeNodeConfig_unknown_key
    {kvs : List (String × Bridge.Toml)} {p : String × Bridge.Toml}
    (hmem : p ∈ kvs) (hbad : Bridge.nodeConfigKey p.1 = false) :
    Bridge.decodeNodeConfig (.table kvs) = .error "unknown field" := by
  have hall : (kvs.all fun q => Bridge.nodeConfigKey q.1) = false :=
    all_eq_false_of_mem hmem hbad
  simp [Bridge.decodeNodeConfig, hall]

/-- A table with an unknown key is rejected by the authorities
deserializer with the unknown-field error. -/
theorem decodeAuthorities_unknown_key
    {kvs : List (String × Bridge.Toml)} {p : String × Bridge.Toml}
    (hmem : p ∈ kvs) (hbad : Bridge.authoritiesKey p.1 = false) :
    Bridge.decodeAuthorities (.table kvs) = .error "unknown field" := by
  have hall : (kvs.all fun q => Bridge.authoritiesKey q.1) = false :=
    all_eq_false_of_mem hmem hbad
  simp [Bridge.decodeAuthorities, hall]

/-- A table with an unknown key is rejected by the top-level config
deserializer with the unknown-field error. -/
theorem decodeConfig_unknown_key
    {kvs : List (String × Bridge.Toml)} {p : String × Bridge.Toml}
    (hmem : p ∈ kvs) (hbad : Bridge.configKey p.1 = false) :
    Bridge.decodeConfig (.table kvs) = .error "unknown field" := by
  have hall : (kvs.all fun q => Bridge.configKey q.1) = false :=
    all_eq_false_of_mem hmem hbad
  simp [Bridge.decodeConfig, hall]

/-- A successful node-config decode implies its key check passed and the
contract section decoded successfully. -/
theorem decodeNodeConfig_ok_inv {kvs : List (String × Bridge.Toml)}
    (h : (Bridge.decodeNodeConfig (.table kvs)).isOk = true) :
    (kvs.all fun q => Bridge.nodeConfigKey q.1) = true ∧
    (Bridge.reqField kvs "contract" Bridge.decodeContractConfig).isOk =
      true := by
  cases hall : (kvs.all fun q => Bridge.nodeConfigKey q.1) with
  | false => simp [Bridge.decodeNodeConfig, hall, Except.isOk, Except.toBool] at h
  | true =>
    cases hc : Bridge.reqField kvs "contract" Bridge.decodeContractConfig with
    | error e => simp [Bridge.decodeNodeConfig, hall, hc, Except.isOk, Except.toBool] at h
    | ok c => exact ⟨rfl, by simp [hc, Except.isOk, Except.toBool]⟩

/-- A successful transactions decode implies its key check passed and the
`home_deploy` sub-config decoded successfully. -/
theorem decodeTransactions_ok_inv {kvs : List (String × Bridge.Toml)}
    (h : (Bridge.decodeTransactions (.table kvs)).isOk = true) :
    (kvs.all fun q => Bridge.transactionsKey q.1) = true ∧
    (Bridge.decodeOptField kvs "home_deploy"
      Bridge.decodeTransactionConfig).isOk = true := by
  cases hall : (kvs.all fun q => Bridge.transactionsKey q.1) with
  | false => simp [Bridge.decodeTransactions, hall, Except.isOk, Except.toBool] at h
  | true =>
    cases hhd : Bridge.decodeOptField kvs "home_deploy"
        Bridge.decodeTransactionConfig with
    | error e => simp [Bridge.decodeTransactions, hall, hhd, Except.isOk, Except.toBool] at h
    | ok c => exact ⟨rfl, by simp [hhd, Except.isOk, Except.toBool]⟩

/-- A successful top-level config decode implies its key check passed and
the home, foreign, authorities and transactions sections all decoded
successfully. -/
theorem decodeConfig_ok_inv {kvs : List (String × Bridge.Toml)}
    (h : (Bridge.decodeConfig (.table kvs)).isOk = true) :
    (kvs.all fun q => Bridge.configKey q.1) = true ∧
    (Bridge.reqField kvs "home" Bridge.decodeNodeConfig).isOk = true ∧
    (Bridge.reqField kvs "foreign" Bridge.decodeNodeConfig).isOk = true ∧
    (Bridge.reqField kvs "authorities" Bridge.decodeAuthorities).isOk =
      true ∧
    (Bridge.decodeOptField kvs "transactions"
      Bridge.decodeTransactions).isOk = true := by
  cases hall : (kvs.all fun q => Bridge.configKey q.1) with
  | false => simp [Bridge.decodeConfig, hall, Except.isOk, Except.toBool] at h
  | true =>
    cases ha : Bridge.reqField kvs "address" Bridge.decodeAddress with
    | error e => simp [Bridge.decodeConfig, hall, ha, Except.isOk, Except.toBool] at h
    | ok a =>
      cases hh : Bridge.reqField kvs "home" Bridge.decodeNodeConfig with
      | error e => simp [Bridge.decodeConfig, hall, ha, hh, Except.isOk, Except.toBool] at h
      | ok home =>
        cases hf : Bridge.reqField kvs "foreign" Bridge.decodeNodeConfig with
        | error e =>
          simp [Bridge.decodeConfig, hall, ha, hh, hf, Except.isOk, Except.toBool] at h
        | ok foreign =>
          cases hau : Bridge.reqField kvs "authorities"
              Bridge.decodeAuthorities with
          | error e =>
            simp [Bridge.decodeConfig, hall, ha, hh, hf, hau,
              Except.isOk, Except.toBool] at h
          | ok au =>
            cases htx : Bridge.decodeOptField kvs "transactions"
                Bridge.decodeTransactions with
            | error e =>
              simp [Bridge.decodeConfig, hall, ha, hh, hf, hau, htx,
                Except.isOk, Except.toBool] at h
            | ok tx =>
              exact ⟨rfl, by simp [hh, Except.isOk, Except.toBool],
                by simp [hf, Except.isOk, Except.toBool], by simp [hau, Except.isOk, Except.toBool],
                by simp [htx, Except.isOk, Except.toBool]⟩

/-- C7: a successful node-config conversion defaults an absent
`request_timeout` to 5 seconds, `poll_interval` to 1 second and
`required_confirmations` to 12, while present fields keep their given
values (`Option.getD`). -/
theorem node_config_defaults (fs : String → Option String)
    (node : Bridge.Load.NodeConfig) (s : String) (bytes : List Nat)
    (hopen : fs node.contract.bin = some s)
    (hhex : hexDecode s = some bytes) :
    Bridge.NodeConfig.from_load_struct fs node = .ok
      { contract := { bin := bytes }
        http := node.http
        request_timeout := node.request_timeout.getD 5
        poll_interval := node.poll_interval.getD 1
        required_confirmations := node.required_confirmations.getD 12 } := by
  simp [Bridge.NodeConfig.from_load_struct, hopen, hhex,
    Bridge.DEFAULT_TIMEOUT, Bridge.DEFAULT_POLL_INTERVAL,
    Bridge.DEFAULT_CONFIRMATIONS]

/-- Witness for `node_config_defaults`: the example home node keeps its
explicit 9-second timeout and receives the poll-interval and confirmation
defaults. -/
theorem node_config_defaults_witness :
    Bridge.NodeConfig.from_load_struct exFs exLoadHomeNode = .ok
      { contract := { bin := [0, 255] }
        http := exLoadHomeNode.http
        request_timeout := exLoadHomeNode.request_timeout.getD 5
        poll_interval := exLoadHomeNode.poll_interval.getD 1
        required_confirmations :=
          exLoadHomeNode.required_confirmations.getD 12 } :=
  node_config_defaults exFs exLoadHomeNode "00ff" [0, 255] (by decide)
    (by decide)

/-- C8: the configuration deserializer rejects unknown fields at every
nesting level — locally at each section's deserializer and through the
top-level deserializer for nested sections — and every per-transaction-type
gas and gas price, as well as the whole transactions table, defaults to
zero when unset. -/
theorem config_strict_schema_and_zero_defaults :
    (∀ (kvs : List (String × Bridge.Toml)) (p : String × Bridge.Toml),
      p ∈ kvs → Bridge.configKey p.1 = false →
      (Bridge.decodeConfig (.table kvs)).isOk = false) ∧
    (∀ (kvs : List (String × Bridge.Toml)) (p : String × Bridge.Toml),
      p ∈ kvs → Bridge.nodeConfigKey p.1 = false →
      (Bridge.decodeNodeConfig (.table kvs)).isOk = false) ∧
    (∀ (kvs : List (String × Bridge.Toml)) (p : String × Bridge.Toml),
      p ∈ kvs → Bridge.transactionsKey p.1 = false →
      (Bridge.decodeTransactions (.table kvs)).isOk = false) ∧
    (∀ (kvs : List (String × Bridge.Toml)) (p : String × Bridge.Toml),
      p ∈ kvs → Bridge.transactionConfigKey p.1 = false →
      (Bridge.decodeTransactionConfig (.table kvs)).isOk = false) ∧
    (∀ (kvs : List (String × Bridge.Toml)) (p : String × Bridge.Toml),
      p ∈ kvs → Bridge.contractConfigKey p.1 = false →
      (Bridge.decodeContractConfig (.table kvs)).isOk = false) ∧
    (∀ (kvs : List (String × Bridge.Toml)) (p : String × Bridge.Toml),
      p ∈ kvs → Bridge.authoritiesKey p.1 = false →
      (Bridge.decodeAuthorities (.table kvs)).isOk = false) ∧
    (∀ (kvs hk : List (String × Bridge.Toml)) (p : String × Bridge.Toml),
      Bridge.getKey kvs "home" = some (.table hk) → p ∈ hk →
      Bridge.nodeConfigKey p.1 = false →
      (Bridge.decodeConfig (.table kvs)).isOk = false) ∧
    (∀ (kvs hk ck : List (String × Bridge.Toml)) (p : String × Bridge.Toml),
      Bridge.getKey kvs "home" = some (.table hk) →
      Bridge.getKey hk "contract" = some (.table ck) → p ∈ ck →
      Bridge.contractConfigKey p.1 = false →
      (Bridge.decodeConfig (.table kvs)).isOk = false) ∧
    (∀ (kvs tk : List (String × Bridge.Toml)) (p : String × Bridge.Toml),
      Bridge.getKey kvs "transactions" = some (.table tk) → p ∈ tk →
      Bridge.transactionsKey p.1 = false →
      (Bridge.decodeConfig (.table kvs)).isOk = false) ∧
    (∀ (kvs tk hk : List (String × Bridge.Toml)) (p : String × Bridge.Toml),
      Bridge.getKey kvs "transactions" = some (.table tk) →
      Bridge.getKey tk "home_deploy" = some (.table hk) → p ∈ hk →
      Bridge.transactionConfigKey p.1 = false →
      (Bridge.decodeConfig (.table kvs)).isOk = false) ∧
    (∀ (kvs ak : List (String × Bridge.Toml)) (p : String × Bridge.Toml),
      Bridge.getKey kvs "authorities" = some (.table ak) → p ∈ ak →
      Bridge.authoritiesKey p.1 = false →
      (Bridge.decodeConfig (.table kvs)).isOk = false) ∧
    (∀ tc : Bridge.Load.TransactionConfig,
      Bridge.TransactionConfig.from_load_struct tc =
        { gas := tc.gas.getD 0, gas_price := tc.gas_price.getD 0 }) ∧
    (∀ lt : Bridge.Load.Transactions, lt.home_deploy = none →
      (Bridge.Transactions.from_load_struct lt).home_deploy =
        { gas := 0, gas_price := 0 }) ∧
    (∀ lt : Bridge.Load.Transactions, lt.foreign_deploy = none →
      (Bridge.Transactions.from_load_struct lt).foreign_deploy =
        { gas := 0, gas_price := 0 }) ∧
    (∀ lt : Bridge.Load.Transactions, lt.deposit_relay = none →
      (Bridge.Transactions.from_load_struct lt).deposit_relay =
        { gas := 0, gas_price := 0 }) ∧
    (∀ lt : Bridge.Load.Transactions, lt.withdraw_confirm = none →
      (Bridge.Transactions.from_load_struct lt).withdraw_confirm =
        { gas := 0, gas_price := 0 }) ∧
    (∀ lt : Bridge.Load.Transactions, lt.withdraw_relay = none →
      (Bridge.Transactions.from_load_struct lt).withdraw_relay =
        { gas := 0, gas_price := 0 }) ∧
    (∀ (fs : String → Option String) (lc : Bridge.Load.Config)
        (c : Bridge.Config), lc.transactions = none →
      Bridge.Config.from_load_struct fs lc = .ok c →
      c.txs =
        { home_deploy := { gas := 0, gas_price := 0 }
          foreign_deploy := { gas := 0, gas_price := 0 }
          deposit_relay := { gas := 0, gas_price := 0 }
          withdraw_confirm := { gas := 0, gas_price := 0 }
          withdraw_relay := { gas := 0, gas_price := 0 } }) := by
  refine ⟨?_, ?_, ?_, ?_, ?_, ?_, ?_, ?_, ?_, ?_, ?_, ?_, ?_, ?_, ?_, ?_,
    ?_, ?_⟩
  · intro kvs p hmem hbad
    rw [decodeConfig_unknown_key hmem hbad]
    rfl
  · intro kvs p hmem hbad
    rw [decodeNodeConfig_unknown_key hmem hbad]
    rfl
  · intro kvs p hmem hbad
    rw [decodeTransactions_unknown_key hmem hbad]
    rfl
  · intro kvs p hmem hbad
    rw [decodeTransactionConfig_unknown_key hmem hbad]
    rfl
  · intro kvs p hmem hbad
    rw [decodeContractConfig_unknown_key hmem hbad]
    rfl
  · intro kvs p hmem hbad
    rw [decodeAuthorities_unknown_key hmem hbad]
    rfl
  · intro kvs hk p hh hmem hbad
    cases hok : (Bridge.decodeConfig (.table kvs)).isOk with
    | false => rfl
    | true =>
      obtain ⟨-, hhome, -, -, -⟩ := decodeConfig_ok_inv hok
      simp only [Bridge.reqField, hh] at hhome
      rw [decodeNodeConfig_unknown_key hmem hbad] at hhome
      simp [Except.isOk, Except.toBool] at hhome
  · intro kvs hk ck p hh hc hmem hbad
    cases hok : (Bridge.decodeConfig (.table kvs)).isOk with
    | false => rfl
    | true =>
      obtain ⟨-, hhome, -, -, -⟩ := decodeConfig_ok_inv hok
      simp only [Bridge.reqField, hh] at hhome
      obtain ⟨-, hcon⟩ := decodeNodeConfig_ok_inv hhome
      simp only [Bridge.reqField, hc] at hcon
      rw [decodeContractConfig_unknown_key hmem hbad] at hcon
      simp [Except.isOk, Except.toBool] at hcon
  · intro kvs tk p hh hmem hbad
    cases hok : (Bridge.decodeConfig (.table kvs)).isOk with
    | false => rfl
    | true =>
      obtain ⟨-, -, -, -, htx⟩ := decodeConfig_ok_inv hok
      simp only [Bridge.decodeOptField, hh] at htx
      rw [isOk_map, decodeTransactions_unknown_key hmem hbad] at htx
      simp [Except.isOk, Except.toBool] at htx
  · intro kvs tk hk p hh hhd hmem hbad
    cases hok : (Bridge.decodeConfig (.table kvs)).isOk with
    | false => rfl
    | true =>
      obtain ⟨-, -, -, -, htx⟩ := decodeConfig_ok_inv hok
      simp only [Bridge.decodeOptField, hh] at htx
      rw [isOk_map] at htx
      obtain ⟨-, hsub⟩ := decodeTransactions_ok_inv htx
      simp only [Bridge.decodeOptField, hhd] at hsub
      rw [isOk_map, decodeTransactionConfig_unknown_key hmem hbad] at hsub
      simp [Except.isOk, Except.toBool] at hsub
  · intro kvs ak p hh hmem hbad
    cases hok : (Bridge.decodeConfig (.table kvs)).isOk with
    | false => rfl
    | true =>
      obtain ⟨-, -, -, hau, -⟩ := decodeConfig_ok_inv hok
      simp only [Bridge.reqField, hh] at hau
      rw [decodeAuthorities_unknown_key hmem hbad] at hau
      simp [Except.isOk, Except.toBool] at hau
  · intro tc
    rfl
  · intro lt h
    simp [Bridge.Transactions.from_load_struct, h,
      Bridge.TransactionConfig.default]
  · intro lt h
    simp [Bridge.Transactions.from_load_struct, h,
      Bridge.TransactionConfig.default]
  · intro lt h
    simp [Bridge.Transactions.from_load_struct, h,
      Bridge.TransactionConfig.default]
  · intro lt h
    simp [Bridge.Transactions.from_load_struct, h,
      Bridge.TransactionConfig.default]
  · intro lt h
    simp [Bridge.Transactions.from_load_struct, h,
      Bridge.TransactionConfig.default]
  · intro fs lc c hnone hok
    cases hh : Bridge.NodeConfig.from_load_struct fs lc.home with
    | error e => simp [Bridge.Config.from_load_struct, hh] at hok
    | ok home =>
      cases hf : Bridge.NodeConfig.from_load_struct fs lc.foreign with
      | error e => simp [Bridge.Config.from_load_struct, hh, hf] at hok
      | ok foreign =>
        simp only [Bridge.Config.from_load_struct, hh, hf] at hok
        injection hok with h2
        subst h2
        simp [hnone, Bridge.Transactions.default,
          Bridge.TransactionConfig.default]

/-- Witness for `config_strict_schema_and_zero_defaults`: a top-level
unknown key is rejected; an unknown key inside the home section is
rejected through the top-level deserializer; an unset gas defaults to
zero; and the example configuration without a transactions table gets the
all-zero table. -/
theorem config_strict_schema_and_zero_defaults_witness :
    (Bridge.decodeConfig (.table [("addresss", .int 1)])).isOk = false ∧
    (Bridge.decodeConfig
      (.table [("home", .table [("contracts", .int 0)])])).isOk = false ∧
    Bridge.TransactionConfig.from_load_struct
      { gas := none, gas_price := some 3 } =
      { gas := (none : Option Nat).getD 0, gas_price := (some 3).getD 0 } ∧
    exBridgeConfig.txs =
      { home_deploy := { gas := 0, gas_price := 0 }
        foreign_deploy := { gas := 0, gas_price := 0 }
        deposit_relay := { gas := 0, gas_price := 0 }
        withdraw_confirm := { gas := 0, gas_price := 0 }
        withdraw_relay := { gas := 0, gas_price := 0 } } := by
  obtain ⟨h1, -, -, -, -, -, h7, -, -, -, -, h12, -, -, -, -, -, h18⟩ :=
    config_strict_schema_and_zero_defaults
  refine ⟨?_, ?_, ?_, ?_⟩
  · exact h1 [("addresss", .int 1)] ("addresss", .int 1) (by simp) rfl
  · exact h7 [("home", .table [("contracts", .int 0)])]
      [("contracts", .int 0)] ("contracts", .int 0) rfl (by simp) rfl
  · exact h12 { gas := none, gas_price := some 3 }
  · exact h18 exFs exLoadConfig exBridgeConfig rfl rfl
